import Mathlib

/-!
Verification of the cabin (seat) reservation and waitlist engine of the
Study-Space repository, shallowly embedded from the Python source under
`backend/app` (routers `cabins.py`, `bookings.py`, `waitlist.py`, service
`waitlist_service.py`, models `reading_room.py`, `booking.py`, `waitlist.py`).

Modelling conventions:
* Timestamps are `Nat` ticks (the source works in whole minutes for every
  duration: hold 5, booking hold 10, offer window 30).
* The `Cabin.hold_expires_at` column is a nullable ISO-8601 *string* in the
  source; `datetime.isoformat` / `datetime.fromisoformat` (after the
  `'Z' -> '+00:00'` normalisation both readers apply) are modelled by an
  abstract round-tripping codec `TimeCodec`, so `try/except` around parsing
  becomes `Option`.  Strings the codec rejects model unparseable column
  values.
* Python truthiness on nullable string columns (`if cabin.held_by_user_id:`)
  is `optTruthy`: `None` and the empty string are falsy.
* SQLAlchemy row mutation + commit is modelled by mapping over the table
  list, replacing the row with the matching primary key.
* `HTTPException` raising is modelled by `Except` error results.
* `float` money amounts are modelled as `Int`: the source never does any
  arithmetic on them other than one addition, and no claim depends on
  rounding.
-/

namespace StudySpace

/-- `CabinStatus` from `app/models/reading_room.py` (lines 8-12).
Note: the enum has **no** `HELD` member; `RESERVED` is what the spec calls
`RESERVED_FOR_WAITLIST`. -/
inductive CabinStatus
  | AVAILABLE
  | OCCUPIED
  | MAINTENANCE
  | RESERVED
deriving DecidableEq, Repr

/-- `BookingStatus` from `app/models/booking.py`. -/
inductive BookingStatus
  | ACTIVE
  | EXPIRED
  | CANCELLED
  | HELD
deriving DecidableEq, Repr

/-- `PaymentStatus` from `app/models/booking.py`. -/
inductive PaymentStatus
  | PAID
  | PENDING
  | REFUNDED
deriving DecidableEq, Repr

/-- `SettlementStatus` from `app/models/booking.py`. -/
inductive SettlementStatus
  | NOT_SETTLED
  | SETTLED
  | ON_HOLD
deriving DecidableEq, Repr

/-- `WaitlistStatus` from `app/models/waitlist.py`. -/
inductive WaitlistStatus
  | ACTIVE
  | NOTIFIED
  | EXPIRED
  | CANCELLED
  | CONVERTED
deriving DecidableEq, Repr

/-- Abstract model of the ISO-8601 timestamp codec used for the
`Cabin.hold_expires_at` string column: `iso` models
`datetime.isoformat`, `parse` models `datetime.fromisoformat` composed with
the `'Z' -> '+00:00'` normalisation (`none` = the `except:` branch).
`round_trip` records that a string the system itself wrote parses back. -/
structure TimeCodec where
  iso : Nat → String
  parse : String → Option Nat
  round_trip : ∀ t : Nat, parse (iso t) = some t

/-- `Cabin` row, `app/models/reading_room.py` lines 85-104. -/
structure Cabin where
  id : String
  reading_room_id : String
  number : String
  floor : Int
  amenities : Option String
  price : Int
  status : CabinStatus
  current_occupant_id : Option String
  zone : Option String
  row_label : Option String
  held_by_user_id : Option String
  hold_expires_at : Option String
deriving DecidableEq, Repr

/-- `Booking` row, `app/models/booking.py`. -/
structure Booking where
  id : String
  user_id : String
  cabin_id : Option String
  accommodation_id : Option String
  start_date : Nat
  end_date : Nat
  created_at : Nat
  amount : Int
  status : BookingStatus
  expires_at : Option Nat
  payment_status : PaymentStatus
  transaction_id : Option String
  settlement_status : SettlementStatus
deriving DecidableEq, Repr

/-- `WaitlistEntry` row, `app/models/waitlist.py`. -/
structure WaitlistEntry where
  id : String
  user_id : String
  cabin_id : String
  reading_room_id : String
  owner_id : Option String
  status : WaitlistStatus
  created_at : Nat
  notified_at : Option Nat
  expires_at : Option Nat
deriving DecidableEq, Repr

/-- `Notification` row, `app/models/waitlist.py`. -/
structure Notification where
  user_id : String
  title : String
  message : String
  read : Bool
  type : String
deriving DecidableEq, Repr

/-- The relevant tables of the shared persistent store. -/
structure DB where
  cabins : List Cabin
  bookings : List Booking
  waitlist : List WaitlistEntry
  notifications : List Notification
deriving DecidableEq, Repr

/-- Python truthiness of a nullable string column:
`None` and `""` are falsy. -/
def optTruthy : Option String → Bool
  | none => false
  | some s => !(s == "")

/-- `SELECT ... WHERE id = x ... .first()` on a table. -/
def findCabin (db : DB) (cid : String) : Option Cabin :=
  db.cabins.find? (fun c => c.id == cid)

def findBooking (db : DB) (bid : String) : Option Booking :=
  db.bookings.find? (fun b => b.id == bid)

def findEntry (db : DB) (eid : String) : Option WaitlistEntry :=
  db.waitlist.find? (fun w => w.id == eid)

/-- ORM row mutation: replace the cabin with primary key `cid`. -/
def setCabin (db : DB) (cid : String) (f : Cabin → Cabin) : DB :=
  { db with cabins := db.cabins.map (fun c => if c.id == cid then f c else c) }

def setBooking (db : DB) (bid : String) (f : Booking → Booking) : DB :=
  { db with bookings := db.bookings.map (fun b => if b.id == bid then f b else b) }

def setEntry (db : DB) (eid : String) (f : WaitlistEntry → WaitlistEntry) : DB :=
  { db with waitlist := db.waitlist.map (fun w => if w.id == eid then f w else w) }

/-- `HOLD_DURATION_MINUTES = 5` (`app/routers/cabins.py` line 16). -/
def HOLD_DURATION_MINUTES : Nat := 5

/-- `is_hold_expired` (`app/routers/cabins.py` lines 183-191):
null column → expired; unparseable column → expired (the bare `except`);
otherwise `datetime.now(timezone.utc) >= expires`. -/
def is_hold_expired (codec : TimeCodec) (now : Nat) : Option String → Bool
  | none => true
  | some s =>
    match codec.parse s with
    | none => true
    | some t => decide (t ≤ now)

/-- `Cabin.is_held` (`app/models/reading_room.py` lines 107-116):
falsy holder or falsy expiry → not held; unparseable expiry → not held
(the bare `except`); otherwise `datetime.now(...) < expires`. -/
def Cabin.is_held (codec : TimeCodec) (now : Nat) (c : Cabin) : Bool :=
  if !(optTruthy c.held_by_user_id) || !(optTruthy c.hold_expires_at) then
    false
  else
    match c.hold_expires_at with
    | none => false
    | some s =>
      match codec.parse s with
      | none => false
      | some t => decide (now < t)

/-- FIFO selection of `waitlist_service.py` lines 26-34:
`WHERE cabin_id = ? AND status = ACTIVE ORDER BY created_at ASC ... .first()`.
Modelled as the first listed entry among those with minimal `created_at`
(a stable sort's head). -/
def olderOf (acc : Option WaitlistEntry) (w : WaitlistEntry) : Option WaitlistEntry :=
  match acc with
  | none => some w
  | some b => if w.created_at < b.created_at then some w else some b

def isActiveFor (cid : String) (w : WaitlistEntry) : Bool :=
  w.cabin_id == cid && w.status == WaitlistStatus.ACTIVE

def oldestActive (cid : String) (ws : List WaitlistEntry) : Option WaitlistEntry :=
  (ws.filter (isActiveFor cid)).foldl olderOf none

/-- The notification text built in `waitlist_service.py` lines 53-58. -/
def offerMessage (number : String) : String :=
  "Cabin " ++ number ++ " is now available! You have 30 minutes to book it before it is offered to the next person."

/-- `WaitlistService.check_waitlist_and_notify` (`app/services/waitlist_service.py`
lines 9-71), the repository's Release Coordinator.  If the cabin exists and an
ACTIVE entry is waiting: promote the FIFO-oldest entry to NOTIFIED
(`notified_at = now`, `expires_at = now + 30`), reserve the cabin for that
user (`status = RESERVED`, `held_by_user_id = entry.user_id`,
`hold_expires_at = isoformat(expires)`), and append one Notification.
Otherwise, only when the cabin is currently RESERVED, mark it AVAILABLE and
clear the holder fields. -/
def check_waitlist_and_notify (codec : TimeCodec) (now : Nat) (cid : String) (db : DB) : DB :=
  match findCabin db cid with
  | none => db
  | some cabin =>
    match oldestActive cid db.waitlist with
    | some e =>
      let expires := now + 30
      let db1 := setEntry db e.id (fun w =>
        { w with status := WaitlistStatus.NOTIFIED
                 notified_at := some now
                 expires_at := some expires })
      let db2 := setCabin db1 cid (fun c =>
        { c with status := CabinStatus.RESERVED
                 held_by_user_id := some e.user_id
                 hold_expires_at := some (codec.iso expires) })
      { db2 with notifications := db2.notifications ++
          [{ user_id := e.user_id
             title := "Seat Available!"
             message := offerMessage cabin.number
             read := false
             type := "success" }] }
    | none =>
      if cabin.status = CabinStatus.RESERVED then
        setCabin db cid (fun c =>
          { c with status := CabinStatus.AVAILABLE
                   held_by_user_id := none
                   hold_expires_at := none })
      else db

/-- Error outcomes of the hold endpoints (`HTTPException`s in
`app/routers/cabins.py`). `occupied` and `maintenance` are the two
400 "seat unavailable" responses; `heldByOther` is the 409. -/
inductive HoldError
  | notFound
  | occupied
  | maintenance
  | heldByOther
  | notHolder
deriving DecidableEq, Repr

/-- The 409 condition of `acquire_seat_hold` (`app/routers/cabins.py` lines
221-222): a truthy holder whose hold has not expired and who is not the
caller. -/
def heldByOtherCond (codec : TimeCodec) (now : Nat) (user : String) (cabin : Cabin) : Bool :=
  optTruthy cabin.held_by_user_id
    && !(is_hold_expired codec now cabin.hold_expires_at)
    && !(cabin.held_by_user_id == some user)

/-- `acquire_seat_hold` (`app/routers/cabins.py` lines 194-254).
Rejects a missing cabin (404), an OCCUPIED or MAINTENANCE cabin (400), and a
cabin with a truthy, unexpired hold belonging to a different user (409).
Otherwise overwrites `held_by_user_id` and `hold_expires_at`
(`now + HOLD_DURATION_MINUTES`); **no other column — in particular not
`status` — is written**. Returns the updated cabin row and store. -/
def acquire_seat_hold (codec : TimeCodec) (now : Nat) (user cid : String) (db : DB) :
    Except HoldError (Cabin × DB) :=
  match findCabin db cid with
  | none => .error .notFound
  | some cabin =>
    if cabin.status = CabinStatus.OCCUPIED then .error .occupied
    else if cabin.status = CabinStatus.MAINTENANCE then .error .maintenance
    else if heldByOtherCond codec now user cabin then
      .error .heldByOther
    else
      let expires := now + HOLD_DURATION_MINUTES
      let c1 := { cabin with held_by_user_id := some user
                             hold_expires_at := some (codec.iso expires) }
      .ok (c1, setCabin db cid (fun _ => c1))

/-- `release_seat_hold` (`app/routers/cabins.py` lines 257-298).
403 unless `held_by_user_id` equals the caller; on success clears the two
holder columns (leaving `status` untouched) and then invokes
`check_waitlist_and_notify` on the cabin. -/
def release_seat_hold (codec : TimeCodec) (now : Nat) (user cid : String) (db : DB) :
    Except HoldError DB :=
  match findCabin db cid with
  | none => .error .notFound
  | some cabin =>
    if !(cabin.held_by_user_id == some user) then .error .notHolder
    else
      let db1 := setCabin db cid (fun c =>
        { c with held_by_user_id := none, hold_expires_at := none })
      .ok (check_waitlist_and_notify codec now cid db1)

/-- Error outcomes of the booking endpoints (`app/routers/bookings.py`). -/
inductive BookingError
  | notFound
  | forbidden
  | alreadyCancelled
  | invalidOrNotHeld
  | expired
  | cabinUnavailable
  | missingExpiry
  | invalidAmount
deriving DecidableEq, Repr

/-- `cancel_booking` (`app/routers/bookings.py` lines 453-492).
404 if missing, 403 unless the caller owns the booking, 400 if already
CANCELLED.  Otherwise sets the booking CANCELLED; when the booking has a
truthy `cabin_id` naming an existing cabin, sets that cabin AVAILABLE with
`current_occupant_id = None` and then invokes `check_waitlist_and_notify`. -/
def cancel_booking (codec : TimeCodec) (now : Nat) (user bid : String) (db : DB) :
    Except BookingError DB :=
  match findBooking db bid with
  | none => .error .notFound
  | some b =>
    if !(b.user_id == user) then .error .forbidden
    else if b.status = BookingStatus.CANCELLED then .error .alreadyCancelled
    else
      let db1 := setBooking db bid (fun x => { x with status := BookingStatus.CANCELLED })
      match b.cabin_id with
      | none => .ok db1
      | some cid =>
        if cid == "" then .ok db1
        else
          match findCabin db1 cid with
          | none => .ok db1
          | some _ =>
            let db2 := setCabin db1 cid (fun c =>
              { c with status := CabinStatus.AVAILABLE, current_occupant_id := none })
            .ok (check_waitlist_and_notify codec now cid db2)

/-- `confirm_booking` (`app/routers/bookings.py` lines 64-102).
400 unless the booking exists in HELD state; then
`if datetime.utcnow() > booking.expires_at: 400 "Booking expired"`
(a null `expires_at` would raise a `TypeError` in the comparison, modelled
as `missingExpiry`).  On success sets the booking ACTIVE with
`payment_status = PAID` and `transaction_id = payment_id`, and — when the
booking's cabin row exists — sets that cabin OCCUPIED with
`current_occupant_id = `**the caller** (the route never checks ownership and
never touches the holder columns). -/
def confirm_booking (now : Nat) (user bid payment_id : String) (db : DB) :
    Except BookingError DB :=
  match findBooking db bid with
  | none => .error .invalidOrNotHeld
  | some b =>
    if !(b.status = BookingStatus.HELD) then .error .invalidOrNotHeld
    else
      match b.expires_at with
      | none => .error .missingExpiry
      | some t =>
        if t < now then .error .expired
        else
          let db1 := setBooking db bid (fun x =>
            { x with status := BookingStatus.ACTIVE
                     payment_status := PaymentStatus.PAID
                     transaction_id := some payment_id })
          match b.cabin_id with
          | none => .ok db1
          | some cid =>
            match findCabin db1 cid with
            | none => .ok db1
            | some _ =>
              .ok (setCabin db1 cid (fun c =>
                { c with status := CabinStatus.OCCUPIED
                         current_occupant_id := some user }))

/-- The inputs of `BookingCreate` the cabin branch of the routes reads. -/
structure BookingCreate where
  cabin_id : Option String
  accommodation_id : Option String
  start_date : Nat
  end_date : Nat
  amount : Int
  transaction_id : Option String
deriving DecidableEq, Repr

/-- `hold_booking` (`app/routers/bookings.py` lines 17-62).
400 without a truthy cabin id, 404 if the cabin is missing, 409 unless the
cabin is AVAILABLE.  Otherwise sets the cabin RESERVED and inserts a HELD
booking with `expires_at = now + 10` (minutes). -/
def hold_booking (now : Nat) (user new_id : String) (req : BookingCreate) (db : DB) :
    Except BookingError (Booking × DB) :=
  match req.cabin_id with
  | none => .error .cabinUnavailable
  | some cid =>
    if cid == "" then .error .cabinUnavailable
    else
      match findCabin db cid with
      | none => .error .notFound
      | some cabin =>
        if !(cabin.status = CabinStatus.AVAILABLE) then .error .cabinUnavailable
        else
          let db1 := setCabin db cid (fun c => { c with status := CabinStatus.RESERVED })
          let nb : Booking :=
            { id := new_id
              user_id := user
              cabin_id := some cid
              accommodation_id := none
              start_date := req.start_date
              end_date := req.end_date
              created_at := now
              amount := req.amount
              status := BookingStatus.HELD
              expires_at := some (now + 10)
              payment_status := PaymentStatus.PENDING
              transaction_id := none
              settlement_status := SettlementStatus.NOT_SETTLED }
          .ok (nb, { db1 with bookings := db1.bookings ++ [nb] })

/-- The cabin branch of `create_booking` (`app/routers/bookings.py` lines
187-276), the direct-booking path.  404 if the cabin is missing, 400 unless
AVAILABLE.  Otherwise sets the cabin OCCUPIED with
`current_occupant_id = user`, marks the caller's first ACTIVE/NOTIFIED
waitlist entry *for the cabin's reading room* CONVERTED (best effort), and
inserts an ACTIVE, PAID booking. -/
def create_booking (now : Nat) (user new_id : String) (req : BookingCreate) (cid : String)
    (db : DB) : Except BookingError (Booking × DB) :=
  match findCabin db cid with
  | none => .error .notFound
  | some cabin =>
    if !(cabin.status = CabinStatus.AVAILABLE) then .error .cabinUnavailable
    else
      let db1 := setCabin db cid (fun c =>
        { c with status := CabinStatus.OCCUPIED, current_occupant_id := some user })
      let db2 :=
        match db1.waitlist.find? (fun w =>
          w.user_id == user && w.reading_room_id == cabin.reading_room_id
            && (w.status == WaitlistStatus.ACTIVE || w.status == WaitlistStatus.NOTIFIED)) with
        | some wl => setEntry db1 wl.id (fun w => { w with status := WaitlistStatus.CONVERTED })
        | none => db1
      let nb : Booking :=
        { id := new_id
          user_id := user
          cabin_id := some cid
          accommodation_id := req.accommodation_id
          start_date := req.start_date
          end_date := req.end_date
          created_at := now
          amount := req.amount
          status := BookingStatus.ACTIVE
          expires_at := none
          payment_status := PaymentStatus.PAID
          transaction_id := req.transaction_id
          settlement_status := SettlementStatus.NOT_SETTLED }
      .ok (nb, { db2 with bookings := db2.bookings ++ [nb] })

/-- `extend_booking` (`app/routers/bookings.py` lines 362-450), with
`new_end_date` already parsed to a timestamp (the route 500s on an
unparseable string before touching state).  404 if missing, 403 unless the
caller owns the booking, 400 when `extension_amount <= 0`.  **No check
relates `new_end_date` to the current `end_date`** (the route computes
`days_extended` only to report `months_extended`); on success it writes only
`end_date` and `amount := amount + extension_amount`. -/
def extend_booking (user bid : String) (new_end_date : Nat) (extension_amount : Int)
    (db : DB) : Except BookingError DB :=
  match findBooking db bid with
  | none => .error .notFound
  | some b =>
    if !(b.user_id == user) then .error .forbidden
    else if extension_amount ≤ 0 then .error .invalidAmount
    else
      .ok (setBooking db bid (fun x =>
        { x with end_date := new_end_date, amount := x.amount + extension_amount }))

/-- `cancel_waitlist` (`app/routers/waitlist.py` lines 166-197).
404 if missing, 403 unless the caller owns the entry.  The route then sets
`entry.status = CANCELLED` **and only afterwards** tests
`if entry.status == WaitlistStatus.NOTIFIED:` to decide whether to release
the cabin hold and re-run `check_waitlist_and_notify`; the embedding keeps
that branch exactly as written (testing the already-overwritten status). -/
def cancel_waitlist (codec : TimeCodec) (now : Nat) (user eid : String) (db : DB) :
    Except BookingError DB :=
  match findEntry db eid with
  | none => .error .notFound
  | some e =>
    if !(e.user_id == user) then .error .forbidden
    else
      let e1 := { e with status := WaitlistStatus.CANCELLED }
      let db1 := setEntry db eid (fun _ => e1)
      if e1.status = WaitlistStatus.NOTIFIED then
        match findCabin db1 e.cabin_id with
        | some cabin =>
          if cabin.held_by_user_id == some user then
            let db2 := setCabin db1 e.cabin_id (fun c =>
              { c with status := CabinStatus.AVAILABLE, held_by_user_id := none })
            .ok (check_waitlist_and_notify codec now e.cabin_id db2)
          else .ok db1
        | none => .ok db1
      else .ok db1

/-- `bulk_update_cabins` (`app/routers/cabins.py` lines 39-62): for every
cabin whose id is listed, overwrite `status` when a truthy status is given
and `price` when a truthy (non-zero) price is given.  No other column is
touched — in particular `current_occupant_id` is never adjusted. -/
def bulk_update_cabins (cabin_ids : List String) (st : Option CabinStatus)
    (price : Option Int) (db : DB) : DB :=
  { db with cabins := db.cabins.map (fun c =>
      if cabin_ids.contains c.id then
        let c1 := match st with
          | some s => { c with status := s }
          | none => c
        match price with
        | some p => if p ≠ 0 then { c1 with price := p } else c1
        | none => c1
      else c) }

/-- The fields of `CabinUpdate` (`app/schemas/reading_room.py` lines 24-35):
each `some` field is applied verbatim by `update_cabin`. -/
structure CabinUpdate where
  status : Option CabinStatus
  price : Option Int
  amenities : Option String
  current_occupant_id : Option String
deriving DecidableEq, Repr

/-- `update_cabin` (`app/routers/cabins.py` lines 65-118), ownership checks
elided (the caller is assumed to own the room).  Applies exactly the set
fields of the payload, then — when the status changed from non-AVAILABLE to
AVAILABLE — invokes `check_waitlist_and_notify`. -/
def update_cabin (codec : TimeCodec) (now : Nat) (cid : String) (upd : CabinUpdate)
    (db : DB) : Except HoldError DB :=
  match findCabin db cid with
  | none => .error .notFound
  | some cabin =>
    let apply1 := fun (c : Cabin) =>
      let c1 := match upd.status with
        | some s => { c with status := s }
        | none => c
      let c2 := match upd.price with
        | some p => { c1 with price := p }
        | none => c1
      let c3 := match upd.amenities with
        | some a => { c2 with amenities := some a }
        | none => c2
      match upd.current_occupant_id with
      | some o => { c3 with current_occupant_id := some o }
      | none => c3
    let db1 := setCabin db cid apply1
    if cabin.status ≠ CabinStatus.AVAILABLE ∧ (apply1 cabin).status = CabinStatus.AVAILABLE then
      .ok (check_waitlist_and_notify codec now cid db1)
    else
      .ok db1

/-!
## Interleaving model of concurrent `acquire_seat_hold`

Each request handler runs `acquire_seat_hold` as two steps separated by
`await` points in the source: the read (`await db.execute(select(Cabin)...)`,
line 207) snapshots the row, and the validate-and-write
(the in-memory checks plus `await db.commit()`, lines 210-234) decides from
that snapshot and then writes `held_by_user_id` / `hold_expires_at` to the
shared store.  There is no `WHERE status=... AND holder=...` guard on the
write, so the decision can be stale.
-/

/-- One in-flight `acquire_seat_hold` request. -/
structure AcqThread where
  user : String
  /-- `none` = has not executed the SELECT yet; `some r` = snapshot taken,
  `r` the row found (or `none` for 404). -/
  snapshot : Option (Option Cabin)
  /-- `none` = still running; `some true` = responded `HoldGranted`;
  `some false` = responded with an error. -/
  granted : Option Bool
deriving DecidableEq, Repr

/-- The pure validation portion of `acquire_seat_hold`
(`app/routers/cabins.py` lines 214-227) applied to a snapshot row. -/
def acquireChecksPass (codec : TimeCodec) (now : Nat) (user : String) (cabin : Cabin) : Bool :=
  !(cabin.status == CabinStatus.OCCUPIED)
    && !(cabin.status == CabinStatus.MAINTENANCE)
    && !(optTruthy cabin.held_by_user_id
          && !(is_hold_expired codec now cabin.hold_expires_at)
          && !(cabin.held_by_user_id == some user))

/-- One scheduler step of a thread: first activation performs the SELECT,
second activation validates against the snapshot and, if the checks pass,
commits the two holder columns to the *current* store. -/
def acqStep (codec : TimeCodec) (now : Nat) (cid : String) (db : DB) (t : AcqThread) :
    DB × AcqThread :=
  match t.snapshot with
  | none => (db, { t with snapshot := some (findCabin db cid) })
  | some none =>
    match t.granted with
    | none => (db, { t with granted := some false })
    | some _ => (db, t)
  | some (some cabin) =>
    match t.granted with
    | some _ => (db, t)
    | none =>
      if acquireChecksPass codec now t.user cabin then
        (setCabin db cid (fun c =>
          { c with held_by_user_id := some t.user
                   hold_expires_at := some (codec.iso (now + HOLD_DURATION_MINUTES)) }),
         { t with granted := some true })
      else (db, { t with granted := some false })

/-- Run two concurrent `acquire_seat_hold` requests under a schedule:
`true` activates the first thread, `false` the second. -/
def runAcqSchedule (codec : TimeCodec) (now : Nat) (cid : String) :
    List Bool → DB × AcqThread × AcqThread → DB × AcqThread × AcqThread
  | [], s => s
  | b :: rest, (db, t1, t2) =>
    if b then
      let p := acqStep codec now cid db t1
      runAcqSchedule codec now cid rest (p.1, p.2, t2)
    else
      let p := acqStep codec now cid db t2
      runAcqSchedule codec now cid rest (p.1, t1, p.2)

/-!
## A concrete executable codec

`datetime.isoformat` / `datetime.fromisoformat` are external library
functions; any injective printer/parser pair satisfies everything the
engine relies on.  For concrete witnesses we use a unary encoding, with
strings containing any other character playing the unparseable inputs. -/

/-- Unary timestamp codec: `t` prints as `t` copies of `'m'`; any string
with a different character is unparseable. -/
def unaryCodec : TimeCodec where
  iso t := String.mk (List.replicate t 'm')
  parse s := if s.data.all (fun ch => ch == 'm') then some s.data.length else none
  round_trip t := by
    simp [List.all_eq_true, List.mem_replicate]

/-! ## Concrete fixtures for witnesses and counterexamples -/

def mkDb (cs : List Cabin) (bs : List Booking) (ws : List WaitlistEntry) : DB :=
  { cabins := cs, bookings := bs, waitlist := ws, notifications := [] }

/-- Baseline cabin row: AVAILABLE, unheld, unoccupied. -/
def cab0 : Cabin :=
  { id := "c1", reading_room_id := "r1", number := "7", floor := 1,
    amenities := none, price := 100, status := CabinStatus.AVAILABLE,
    current_occupant_id := none, zone := none, row_label := none,
    held_by_user_id := none, hold_expires_at := none }

/-- Baseline booking row: ACTIVE on `cab0`, owned by `u1`. -/
def bk0 : Booking :=
  { id := "b1", user_id := "u1", cabin_id := some "c1", accommodation_id := none,
    start_date := 0, end_date := 1000, created_at := 0, amount := 100,
    status := BookingStatus.ACTIVE, expires_at := none,
    payment_status := PaymentStatus.PAID, transaction_id := none,
    settlement_status := SettlementStatus.NOT_SETTLED }

/-- Baseline waitlist entry: ACTIVE for `cab0`, user `u2`. -/
def wl0 : WaitlistEntry :=
  { id := "w1", user_id := "u2", cabin_id := "c1", reading_room_id := "r1",
    owner_id := none, status := WaitlistStatus.ACTIVE, created_at := 3,
    notified_at := none, expires_at := none }

/-- The §3 seat invariant under scrutiny in C6:
`status == OCCUPIED ⇔ occupant_id != null`. -/
def occInv (c : Cabin) : Prop :=
  c.status = CabinStatus.OCCUPIED ↔ c.current_occupant_id ≠ none

instance (c : Cabin) : Decidable (occInv c) := by
  unfold occInv
  infer_instance

/-- The invariant holds for every cabin row of the store. -/
def dbOccInv (db : DB) : Prop :=
  ∀ c ∈ db.cabins, occInv c

instance (db : DB) : Decidable (dbOccInv db) := by
  unfold dbOccInv
  infer_instance

/-- Fixture for the C1 witness: seat `c1` OCCUPIED by `u1`'s ACTIVE booking
`b1`, with `u2` (`w1`, created 3) then `u3` (`w2`, created 4) waiting. -/
def dbC1 : DB :=
  mkDb [{ cab0 with status := CabinStatus.OCCUPIED, current_occupant_id := some "u1" }]
       [bk0]
       [wl0, { wl0 with id := "w2", user_id := "u3", created_at := 4 }]

/-! ## Lemmas about the embedding -/

theorem find?_map_of_pred {α : Type} (g : α → α) (p : α → Bool)
    (hp : ∀ x, p (g x) = p x) (l : List α) :
    (l.map g).find? p = (l.find? p).map g := by
  induction l with
  | nil => rfl
  | cons a l ih =>
    by_cases h : p a
    · rw [List.map_cons, List.find?_cons_of_pos _ (by rw [hp]; exact h),
        List.find?_cons_of_pos _ h]
      rfl
    · rw [List.map_cons, List.find?_cons_of_neg _ (by rw [hp]; exact h),
        List.find?_cons_of_neg _ h, ih]

theorem find?_update_same {α : Type} (key : α → String) (k : String) (f : α → α) (x0 : α)
    (hf : ∀ x, key (f x) = key x)
    (l : List α) (h : l.find? (fun x => key x == k) = some x0) :
    (l.map (fun x => if key x == k then f x else x)).find? (fun x => key x == k)
      = some (f x0) := by
  have hp : ∀ x, (key (if key x == k then f x else x) == k) = (key x == k) := by
    intro x
    by_cases hx : key x == k
    · rw [if_pos hx, hf]
    · rw [if_neg hx]
  rw [find?_map_of_pred _ _ hp, h]
  have hc0 := List.find?_some h
  simp only [Option.map_some']
  rw [if_pos hc0]

theorem find?_update_other {α : Type} (key : α → String) (k k' : String) (f : α → α)
    (hf : ∀ x, key (f x) = key x) (hne : k' ≠ k) (l : List α) :
    (l.map (fun x => if key x == k then f x else x)).find? (fun x => key x == k')
      = l.find? (fun x => key x == k') := by
  have hp : ∀ x, (key (if key x == k then f x else x) == k') = (key x == k') := by
    intro x
    by_cases hx : key x == k
    · rw [if_pos hx, hf]
    · rw [if_neg hx]
  rw [find?_map_of_pred _ _ hp]
  cases hfind : l.find? (fun x => key x == k') with
  | none => rfl
  | some x0 =>
    have h1 := List.find?_some hfind
    have h2 : ¬(key x0 == k) = true := by
      intro h2
      exact hne ((beq_iff_eq.mp h1).symm.trans (beq_iff_eq.mp h2))
    simp only [Option.map_some']
    rw [if_neg h2]

theorem mem_update_of_ne {α : Type} (key : α → String) (k : String) (f : α → α)
    (l : List α) (x : α) (hx : x ∈ l) (hne : key x ≠ k) :
    x ∈ l.map (fun y => if key y == k then f y else y) := by
  have hid : (fun y => if key y == k then f y else y) x = x := by
    simp [hne]
  exact hid ▸ List.mem_map_of_mem _ hx

@[simp] theorem setBooking_cabins (db : DB) (k : String) (f : Booking → Booking) :
    (setBooking db k f).cabins = db.cabins := rfl
@[simp] theorem setBooking_waitlist (db : DB) (k : String) (f : Booking → Booking) :
    (setBooking db k f).waitlist = db.waitlist := rfl
@[simp] theorem setBooking_notifications (db : DB) (k : String) (f : Booking → Booking) :
    (setBooking db k f).notifications = db.notifications := rfl
@[simp] theorem setCabin_bookings (db : DB) (k : String) (f : Cabin → Cabin) :
    (setCabin db k f).bookings = db.bookings := rfl
@[simp] theorem setCabin_waitlist (db : DB) (k : String) (f : Cabin → Cabin) :
    (setCabin db k f).waitlist = db.waitlist := rfl
@[simp] theorem setCabin_notifications (db : DB) (k : String) (f : Cabin → Cabin) :
    (setCabin db k f).notifications = db.notifications := rfl
@[simp] theorem setEntry_cabins (db : DB) (k : String) (f : WaitlistEntry → WaitlistEntry) :
    (setEntry db k f).cabins = db.cabins := rfl
@[simp] theorem setEntry_bookings (db : DB) (k : String) (f : WaitlistEntry → WaitlistEntry) :
    (setEntry db k f).bookings = db.bookings := rfl
@[simp] theorem setEntry_notifications (db : DB) (k : String) (f : WaitlistEntry → WaitlistEntry) :
    (setEntry db k f).notifications = db.notifications := rfl

theorem olderOf_cases (acc : Option WaitlistEntry) (a : WaitlistEntry) :
    ∃ m, olderOf acc a = some m ∧ (m = a ∨ acc = some m)
      ∧ m.created_at ≤ a.created_at
      ∧ ∀ b, acc = some b → m.created_at ≤ b.created_at := by
  cases acc with
  | none =>
    exact ⟨a, rfl, Or.inl rfl, le_refl _, by intro b hb; cases hb⟩
  | some b =>
    by_cases h : a.created_at < b.created_at
    · refine ⟨a, by simp [olderOf, h], Or.inl rfl, le_refl _, ?_⟩
      intro b1 hb1
      injection hb1 with h2
      rw [← h2]
      exact le_of_lt h
    · refine ⟨b, by simp [olderOf, h], Or.inr rfl, le_of_not_lt h, ?_⟩
      intro b1 hb1
      injection hb1 with h2
      rw [← h2]

theorem foldl_olderOf_spec :
    ∀ (L : List WaitlistEntry) (acc : Option WaitlistEntry) (e : WaitlistEntry),
    L.foldl olderOf acc = some e →
      (acc = some e ∨ e ∈ L)
        ∧ (∀ b, acc = some b → e.created_at ≤ b.created_at)
        ∧ (∀ w ∈ L, e.created_at ≤ w.created_at) := by
  intro L
  induction L with
  | nil =>
    intro acc e h
    simp only [List.foldl_nil] at h
    refine ⟨Or.inl h, ?_, ?_⟩
    · intro b hb
      rw [h] at hb
      injection hb with h2
      rw [h2]
    · intro w hw
      cases hw
  | cons a L ih =>
    intro acc e h
    rw [List.foldl_cons] at h
    obtain ⟨m, hm, hma, hle_a, hle_acc⟩ := olderOf_cases acc a
    rw [hm] at h
    obtain ⟨h1, h2, h3⟩ := ih (some m) e h
    have hem : e.created_at ≤ m.created_at := h2 m rfl
    constructor
    · rcases h1 with h1 | h1
      · injection h1 with h1
        rcases hma with hma | hma
        · exact Or.inr (by rw [← h1, hma]; exact List.mem_cons_self _ _)
        · exact Or.inl (by rw [← h1]; exact hma)
      · exact Or.inr (List.mem_cons_of_mem _ h1)
    constructor
    · intro b hb
      exact le_trans hem (hle_acc b hb)
    · intro w hw
      rcases List.mem_cons.mp hw with hw | hw
      · rw [hw]
        exact le_trans hem hle_a
      · exact h3 w hw

theorem oldestActive_spec (cid : String) (ws : List WaitlistEntry) (e : WaitlistEntry)
    (h : oldestActive cid ws = some e) :
    e ∈ ws ∧ e.cabin_id = cid ∧ e.status = WaitlistStatus.ACTIVE
      ∧ ∀ w ∈ ws, w.cabin_id = cid → w.status = WaitlistStatus.ACTIVE →
          e.created_at ≤ w.created_at := by
  unfold oldestActive at h
  obtain ⟨h1, _, h3⟩ := foldl_olderOf_spec _ none e h
  have hmem : e ∈ ws.filter (isActiveFor cid) := by
    rcases h1 with h1 | h1
    · cases h1
    · exact h1
  rw [List.mem_filter] at hmem
  have hp := hmem.2
  unfold isActiveFor at hp
  rw [Bool.and_eq_true, beq_iff_eq, beq_iff_eq] at hp
  refine ⟨hmem.1, hp.1, hp.2, ?_⟩
  intro w hw hwc hws
  exact h3 w (List.mem_filter.mpr ⟨hw, by simp [isActiveFor, hwc, hws]⟩)

theorem foldl_olderOf_some : ∀ (L : List WaitlistEntry) (b : WaitlistEntry),
    ∃ e, L.foldl olderOf (some b) = some e := by
  intro L
  induction L with
  | nil => intro b; exact ⟨b, rfl⟩
  | cons a L ih =>
    intro b
    rw [List.foldl_cons]
    obtain ⟨m, hm, _⟩ := olderOf_cases (some b) a
    rw [hm]
    exact ih m

theorem oldestActive_isSome (cid : String) (ws : List WaitlistEntry) (w : WaitlistEntry)
    (hw : w ∈ ws) (hc : w.cabin_id = cid) (hs : w.status = WaitlistStatus.ACTIVE) :
    ∃ e, oldestActive cid ws = some e := by
  unfold oldestActive
  have hmem : w ∈ ws.filter (isActiveFor cid) :=
    List.mem_filter.mpr ⟨hw, by simp [isActiveFor, hc, hs]⟩
  cases hL : ws.filter (isActiveFor cid) with
  | nil => rw [hL] at hmem; cases hmem
  | cons a L =>
    rw [List.foldl_cons]
    exact foldl_olderOf_some L a

theorem findCabin_setCabin_same (db : DB) (cid : String) (f : Cabin → Cabin) (c0 : Cabin)
    (hf : ∀ c, (f c).id = c.id) (h : findCabin db cid = some c0) :
    findCabin (setCabin db cid f) cid = some (f c0) :=
  find?_update_same Cabin.id cid f c0 hf db.cabins h

theorem findBooking_setBooking_same (db : DB) (bid : String) (f : Booking → Booking)
    (b0 : Booking) (hf : ∀ b, (f b).id = b.id) (h : findBooking db bid = some b0) :
    findBooking (setBooking db bid f) bid = some (f b0) :=
  find?_update_same Booking.id bid f b0 hf db.bookings h

theorem findCabin_setBooking (db : DB) (bid : String) (f : Booking → Booking) (cid : String) :
    findCabin (setBooking db bid f) cid = findCabin db cid := rfl

theorem findCabin_setEntry (db : DB) (eid : String) (f : WaitlistEntry → WaitlistEntry)
    (cid : String) : findCabin (setEntry db eid f) cid = findCabin db cid := rfl

theorem findBooking_setCabin (db : DB) (cid : String) (f : Cabin → Cabin) (bid : String) :
    findBooking (setCabin db cid f) bid = findBooking db bid := rfl

/-! ## Claim C3 -/

/-- **C3** (amended).  For every seat and user, `acquire_hold` fails with a
seat-unavailable error exactly when the seat's status is OCCUPIED or
MAINTENANCE; otherwise it fails with `HeldByOther` (HTTP 409) exactly when a
truthy recorded holder's hold has not expired and the holder is a different
user; and in every other case (hold expired, hold belongs to the same user,
or no truthy holder) it succeeds — but success writes **only**
`held_by_user_id := user` and `hold_expires_at := now + ttl`
(a same-user re-acquisition thereby refreshing the TTL); the seat's `status`
is left unchanged, never set to any "HELD" marker (the source's
`CabinStatus` enum has no such member). -/
theorem C3_acquire_hold_characterization (codec : TimeCodec) (now : Nat) (user cid : String)
    (db : DB) (cabin : Cabin) (hc : findCabin db cid = some cabin) :
    ((acquire_seat_hold codec now user cid db = .error .occupied
        ∨ acquire_seat_hold codec now user cid db = .error .maintenance)
      ↔ (cabin.status = CabinStatus.OCCUPIED ∨ cabin.status = CabinStatus.MAINTENANCE))
    ∧ (acquire_seat_hold codec now user cid db = .error .heldByOther
      ↔ (cabin.status ≠ CabinStatus.OCCUPIED ∧ cabin.status ≠ CabinStatus.MAINTENANCE
          ∧ heldByOtherCond codec now user cabin = true))
    ∧ ((cabin.status ≠ CabinStatus.OCCUPIED ∧ cabin.status ≠ CabinStatus.MAINTENANCE
          ∧ heldByOtherCond codec now user cabin = false) →
        acquire_seat_hold codec now user cid db =
          .ok ({ cabin with
                   held_by_user_id := some user
                   hold_expires_at := some (codec.iso (now + HOLD_DURATION_MINUTES)) },
               setCabin db cid (fun _ =>
                 { cabin with
                     held_by_user_id := some user
                     hold_expires_at := some (codec.iso (now + HOLD_DURATION_MINUTES)) })))
    ∧ (heldByOtherCond codec now user cabin = true
      ↔ (optTruthy cabin.held_by_user_id = true
          ∧ is_hold_expired codec now cabin.hold_expires_at = false
          ∧ cabin.held_by_user_id ≠ some user)) := by
  have hacq : acquire_seat_hold codec now user cid db =
      (if cabin.status = CabinStatus.OCCUPIED then .error .occupied
       else if cabin.status = CabinStatus.MAINTENANCE then .error .maintenance
       else if heldByOtherCond codec now user cabin then .error .heldByOther
       else .ok ({ cabin with
                     held_by_user_id := some user
                     hold_expires_at := some (codec.iso (now + HOLD_DURATION_MINUTES)) },
                 setCabin db cid (fun _ =>
                   { cabin with
                       held_by_user_id := some user
                       hold_expires_at := some (codec.iso (now + HOLD_DURATION_MINUTES)) }))) := by
    rw [acquire_seat_hold, hc]
  refine ⟨?_, ?_, ?_, ?_⟩
  · rw [hacq]
    by_cases h1 : cabin.status = CabinStatus.OCCUPIED
    · simp [h1]
    · by_cases h2 : cabin.status = CabinStatus.MAINTENANCE
      · simp [h1, h2]
      · by_cases h3 : heldByOtherCond codec now user cabin <;> simp [h1, h2, h3]
  · rw [hacq]
    by_cases h1 : cabin.status = CabinStatus.OCCUPIED
    · simp [h1]
    · by_cases h2 : cabin.status = CabinStatus.MAINTENANCE
      · simp [h1, h2]
      · by_cases h3 : heldByOtherCond codec now user cabin <;> simp [h1, h2, h3]
  · rintro ⟨h1, h2, h3⟩
    rw [hacq, if_neg h1, if_neg h2, h3]
    simp
  · simp [heldByOtherCond, and_assoc]

/-- Witness for C3: on a concrete AVAILABLE, unheld seat the success branch
of the characterization applies and yields the updated row. -/
theorem C3_witness :
    acquire_seat_hold unaryCodec 0 "u1" "c1" (mkDb [cab0] [] []) =
      .ok ({ cab0 with
               held_by_user_id := some "u1"
               hold_expires_at := some (unaryCodec.iso 5) },
           setCabin (mkDb [cab0] [] []) "c1" (fun _ =>
             { cab0 with
                 held_by_user_id := some "u1"
                 hold_expires_at := some (unaryCodec.iso 5) })) :=
  (C3_acquire_hold_characterization unaryCodec 0 "u1" "c1" (mkDb [cab0] [] []) cab0
    rfl).2.2.1 (by refine ⟨by decide, by decide, rfl⟩)

/-- Counterexample to C3 as stated: on an AVAILABLE seat the hold is granted,
yet the seat's `status` is still `AVAILABLE` afterwards — it is never set to
`HELD` (no such member exists in the source enum). -/
theorem C3_counterexample :
    ∃ c1 db1, acquire_seat_hold unaryCodec 0 "u1" "c1" (mkDb [cab0] [] []) = .ok (c1, db1)
      ∧ c1.status = CabinStatus.AVAILABLE
      ∧ findCabin db1 "c1" = some c1 := by
  exact ⟨_, _, rfl, rfl, rfl⟩

/-! ## Claim C9 -/

/-- **C9** (confirmed).  A successful `acquire_hold` modifies only the
seat's `held_by_user_id` and `hold_expires_at` fields; every other field —
in particular its `status` enum — is identical before and after the call
(so a seat under an interactive hold still reports its prior status, e.g.
AVAILABLE, in the registry), the other tables are untouched, and every
other cabin row survives unchanged. -/
theorem C9_acquire_hold_frame (codec : TimeCodec) (now : Nat) (user cid : String)
    (db : DB) (cabin c1 : Cabin) (db1 : DB)
    (hc : findCabin db cid = some cabin)
    (h : acquire_seat_hold codec now user cid db = .ok (c1, db1)) :
    c1.status = cabin.status
      ∧ c1.current_occupant_id = cabin.current_occupant_id
      ∧ c1.id = cabin.id ∧ c1.reading_room_id = cabin.reading_room_id
      ∧ c1.number = cabin.number ∧ c1.floor = cabin.floor
      ∧ c1.amenities = cabin.amenities ∧ c1.price = cabin.price
      ∧ c1.zone = cabin.zone ∧ c1.row_label = cabin.row_label
      ∧ c1.held_by_user_id = some user
      ∧ c1.hold_expires_at = some (codec.iso (now + HOLD_DURATION_MINUTES))
      ∧ db1.bookings = db.bookings ∧ db1.waitlist = db.waitlist
      ∧ db1.notifications = db.notifications
      ∧ (∀ c ∈ db.cabins, c.id ≠ cid → c ∈ db1.cabins) := by
  have hacq : acquire_seat_hold codec now user cid db =
      (if cabin.status = CabinStatus.OCCUPIED then .error .occupied
       else if cabin.status = CabinStatus.MAINTENANCE then .error .maintenance
       else if heldByOtherCond codec now user cabin then .error .heldByOther
       else .ok ({ cabin with
                     held_by_user_id := some user
                     hold_expires_at := some (codec.iso (now + HOLD_DURATION_MINUTES)) },
                 setCabin db cid (fun _ =>
                   { cabin with
                       held_by_user_id := some user
                       hold_expires_at := some (codec.iso (now + HOLD_DURATION_MINUTES)) }))) := by
    rw [acquire_seat_hold, hc]
  rw [hacq] at h
  by_cases h1 : cabin.status = CabinStatus.OCCUPIED
  · rw [if_pos h1] at h; cases h
  · rw [if_neg h1] at h
    by_cases h2 : cabin.status = CabinStatus.MAINTENANCE
    · rw [if_pos h2] at h; cases h
    · rw [if_neg h2] at h
      by_cases h3 : heldByOtherCond codec now user cabin = true
      · rw [if_pos h3] at h; cases h
      · rw [if_neg h3] at h
        obtain ⟨hcab, hdb⟩ := Prod.mk.inj (Except.ok.inj h)
        subst hcab
        subst hdb
        refine ⟨rfl, rfl, rfl, rfl, rfl, rfl, rfl, rfl, rfl, rfl, rfl, rfl, rfl, rfl, rfl, ?_⟩
        intro c hcmem hne
        exact mem_update_of_ne Cabin.id cid _ db.cabins c hcmem hne

/-- Witness for C9 at a concrete AVAILABLE seat. -/
theorem C9_witness :
    ∃ c1 db1, acquire_seat_hold unaryCodec 0 "u1" "c1" (mkDb [cab0] [] []) = .ok (c1, db1)
      ∧ c1.status = cab0.status :=
  ⟨_, _, rfl,
    (C9_acquire_hold_frame unaryCodec 0 "u1" "c1" (mkDb [cab0] [] []) cab0 _ _ rfl rfl).1⟩

/-! ## Claim C10 -/

/-- **C10** (confirmed).  The hold-expiry check is total and fails closed
toward "free": a null `hold_expires_at`, or any string the timestamp parser
rejects, makes `is_hold_expired` answer `true` and `Cabin.is_held` answer
`false` (the bare `except:` branches, modelled by the codec returning
`none`), and `acquire_hold` on such a seat proceeds as if the seat were
unheld — it succeeds for any caller whenever the status is not OCCUPIED or
MAINTENANCE. -/
theorem C10_expiry_fails_closed (codec : TimeCodec) (now : Nat) :
    (is_hold_expired codec now none = true)
    ∧ (∀ s, codec.parse s = none → is_hold_expired codec now (some s) = true)
    ∧ (∀ c : Cabin, c.hold_expires_at = none → Cabin.is_held codec now c = false)
    ∧ (∀ (c : Cabin) (s : String), c.hold_expires_at = some s → codec.parse s = none →
        Cabin.is_held codec now c = false)
    ∧ (∀ (db : DB) (cid user : String) (cabin : Cabin),
        findCabin db cid = some cabin →
        cabin.status ≠ CabinStatus.OCCUPIED → cabin.status ≠ CabinStatus.MAINTENANCE →
        (cabin.hold_expires_at = none
          ∨ ∃ s, cabin.hold_expires_at = some s ∧ codec.parse s = none) →
        ∃ c1 db1, acquire_seat_hold codec now user cid db = .ok (c1, db1)) := by
  refine ⟨rfl, ?_, ?_, ?_, ?_⟩
  · intro s h
    simp [is_hold_expired, h]
  · intro c h
    simp [Cabin.is_held, h, optTruthy]
  · intro c s hs hp
    unfold Cabin.is_held
    rw [hs]
    by_cases ht : (!optTruthy c.held_by_user_id || !optTruthy (some s)) = true
    · rw [if_pos ht]
    · rw [if_neg ht]
      simp [hp]
  · intro db cid user cabin hc h1 h2 hcase
    have hexp : is_hold_expired codec now cabin.hold_expires_at = true := by
      rcases hcase with h | ⟨s, hs, hp⟩
      · rw [h]; rfl
      · rw [hs]; simp [is_hold_expired, hp]
    have hcond : heldByOtherCond codec now user cabin = false := by
      simp [heldByOtherCond, hexp]
    refine ⟨{ cabin with
                held_by_user_id := some user
                hold_expires_at := some (codec.iso (now + HOLD_DURATION_MINUTES)) },
            setCabin db cid (fun _ =>
              { cabin with
                  held_by_user_id := some user
                  hold_expires_at := some (codec.iso (now + HOLD_DURATION_MINUTES)) }), ?_⟩
    have hacq : acquire_seat_hold codec now user cid db =
        (if cabin.status = CabinStatus.OCCUPIED then .error .occupied
         else if cabin.status = CabinStatus.MAINTENANCE then .error .maintenance
         else if heldByOtherCond codec now user cabin then .error .heldByOther
         else .ok ({ cabin with
                       held_by_user_id := some user
                       hold_expires_at := some (codec.iso (now + HOLD_DURATION_MINUTES)) },
                   setCabin db cid (fun _ =>
                     { cabin with
                         held_by_user_id := some user
                         hold_expires_at := some (codec.iso (now + HOLD_DURATION_MINUTES)) }))) := by
      rw [acquire_seat_hold, hc]
    rw [hacq, if_neg h1, if_neg h2, hcond]
    rfl

/-- Witness for C10: the concrete string `"zz"` is unparseable for the
unary codec, the expiry check treats it as expired, and acquisition by a
different user succeeds on a seat "held" with that expiry. -/
theorem C10_witness :
    is_hold_expired unaryCodec 7 (some "zz") = true
      ∧ ∃ c1 db1, acquire_seat_hold unaryCodec 7 "u1" "c1"
          (mkDb [{ cab0 with held_by_user_id := some "u9", hold_expires_at := some "zz" }] [] [])
          = .ok (c1, db1) :=
  ⟨(C10_expiry_fails_closed unaryCodec 7).2.1 "zz" (by decide),
   (C10_expiry_fails_closed unaryCodec 7).2.2.2.2 _ "c1" "u1" _ rfl
     (by decide) (by decide) (Or.inr ⟨"zz", rfl, by decide⟩)⟩

/-! ## Claim C4 -/

/-- **C4** (amended).  For every seat whose recorded holder is the calling
user, `release_hold` clears `holder_id` and `hold_expires_at` — leaving the
seat's `status` unchanged — and then always invokes the Release Coordinator
(`check_waitlist_and_notify`) on that seat; the coordinator, not the release
itself, is what can move the status (to AVAILABLE only when the seat was
RESERVED with no ACTIVE waiter).  For any caller who is not the recorded
holder it fails with `NotHolder` and changes nothing. -/
theorem C4_release_hold (codec : TimeCodec) (now : Nat) (user cid : String)
    (db : DB) (cabin : Cabin) (hc : findCabin db cid = some cabin) :
    (¬(cabin.held_by_user_id = some user) →
        release_seat_hold codec now user cid db = .error .notHolder)
    ∧ (cabin.held_by_user_id = some user →
        release_seat_hold codec now user cid db =
          .ok (check_waitlist_and_notify codec now cid
                (setCabin db cid (fun c =>
                  { c with held_by_user_id := none, hold_expires_at := none }))))
    ∧ (findCabin (setCabin db cid (fun c =>
          { c with held_by_user_id := none, hold_expires_at := none })) cid =
        some { cabin with held_by_user_id := none, hold_expires_at := none }) := by
  have hrel : release_seat_hold codec now user cid db =
      (if !(cabin.held_by_user_id == some user) then .error .notHolder
       else .ok (check_waitlist_and_notify codec now cid
         (setCabin db cid (fun c =>
           { c with held_by_user_id := none, hold_expires_at := none })))) := by
    rw [release_seat_hold, hc]
  refine ⟨?_, ?_, ?_⟩
  · intro h
    rw [hrel, if_pos]
    simp [h]
  · intro h
    rw [hrel, if_neg]
    simp [h]
  · exact findCabin_setCabin_same db cid _ cabin (fun c => rfl) hc

/-- Witness for C4 at a concrete held seat: release by the holder clears
the fields and hands the state to the coordinator. -/
theorem C4_witness :
    release_seat_hold unaryCodec 0 "u1" "c1"
        (mkDb [{ cab0 with held_by_user_id := some "u1"
                           hold_expires_at := some (unaryCodec.iso 5) }] [] []) =
      .ok (check_waitlist_and_notify unaryCodec 0 "c1"
        (setCabin (mkDb [{ cab0 with held_by_user_id := some "u1"
                                     hold_expires_at := some (unaryCodec.iso 5) }] [] []) "c1"
          (fun c => { c with held_by_user_id := none, hold_expires_at := none }))) :=
  (C4_release_hold unaryCodec 0 "u1" "c1"
     (mkDb [{ cab0 with held_by_user_id := some "u1"
                        hold_expires_at := some (unaryCodec.iso 5) }] [] [])
     { cab0 with held_by_user_id := some "u1", hold_expires_at := some (unaryCodec.iso 5) }
     rfl).2.1 rfl

/-- Counterexample to C4 as stated: a seat that is OCCUPIED (by a direct
booking that raced the hold) while still recording the caller as holder:
`release_hold` succeeds, clears the holder, but the final status is
OCCUPIED, not AVAILABLE — the route never writes `status = AVAILABLE`. -/
theorem C4_counterexample :
    ∃ db1 c1, release_seat_hold unaryCodec 0 "u1" "c1"
        (mkDb [{ cab0 with status := CabinStatus.OCCUPIED
                           current_occupant_id := some "v1"
                           held_by_user_id := some "u1"
                           hold_expires_at := some (unaryCodec.iso 9) }] [] []) = .ok db1
      ∧ findCabin db1 "c1" = some c1
      ∧ c1.status = CabinStatus.OCCUPIED
      ∧ c1.held_by_user_id = none :=
  ⟨_, _, rfl, rfl, rfl, rfl⟩

/-! ## Claim C5 -/

/-- **C5** (amended).  For every booking in HELD state with a set
`expires_at`, `confirm_booking` fails with `Expired` (and changes nothing)
exactly when the current time is **strictly after** `expires_at` — at
`now = expires_at` it still succeeds, so success is `now ≤ expires_at`, not
`now < expires_at`.  On success it sets the booking ACTIVE with
`payment_status = PAID`, and sets the seat's status to OCCUPIED with
`occupant_id` equal to **the caller** (the route never checks that the
caller owns the booking) while the seat's holder fields (`held_by_user_id`,
`hold_expires_at`) are **not** cleared. -/
theorem C5_confirm_booking (now : Nat) (user bid pid : String) (db : DB)
    (b : Booking) (t : Nat)
    (hb : findBooking db bid = some b)
    (hst : b.status = BookingStatus.HELD)
    (he : b.expires_at = some t) :
    (t < now → confirm_booking now user bid pid db = .error .expired)
    ∧ (∀ cid cabin, now ≤ t → b.cabin_id = some cid → findCabin db cid = some cabin →
        ∃ db1, confirm_booking now user bid pid db = .ok db1
          ∧ findBooking db1 bid =
              some { b with status := BookingStatus.ACTIVE
                            payment_status := PaymentStatus.PAID
                            transaction_id := some pid }
          ∧ findCabin db1 cid =
              some { cabin with status := CabinStatus.OCCUPIED
                                current_occupant_id := some user }) := by
  have hown : (!(b.status = BookingStatus.HELD) : Bool) = false := by
    simp [hst]
  constructor
  · intro hlt
    simp only [confirm_booking, hb]
    rw [hst, he]
    simp [hlt]
  · intro cid cabin hle hcid hcab
    have hnl : ¬(t < now) := Nat.not_lt.mpr hle
    refine ⟨setCabin (setBooking db bid (fun x =>
              { x with status := BookingStatus.ACTIVE
                       payment_status := PaymentStatus.PAID
                       transaction_id := some pid })) cid
              (fun c => { c with status := CabinStatus.OCCUPIED
                                 current_occupant_id := some user }), ?_, ?_, ?_⟩
    · simp only [confirm_booking, hb]
      rw [hst, he, hcid]
      have hcab1 : findCabin (setBooking db bid (fun x =>
          { x with status := BookingStatus.ACTIVE
                   payment_status := PaymentStatus.PAID
                   transaction_id := some pid })) cid = some cabin := by
        rw [findCabin_setBooking]; exact hcab
      simp [hnl, hcab1]
    · rw [findBooking_setCabin]
      exact findBooking_setBooking_same db bid _ b (fun x => rfl) hb
    · exact findCabin_setCabin_same _ cid _ cabin (fun c => rfl)
        (by rw [findCabin_setBooking]; exact hcab)

/-- Witness for C5: a concrete unexpired HELD booking confirmed by its
owner ends ACTIVE/PAID with the seat OCCUPIED by that owner. -/
theorem C5_witness :
    ∃ db1, confirm_booking 5 "u1" "b1" "p1"
        (mkDb [cab0] [{ bk0 with status := BookingStatus.HELD, expires_at := some 10 }] [])
        = .ok db1
      ∧ findBooking db1 "b1" =
          some { bk0 with status := BookingStatus.ACTIVE
                          payment_status := PaymentStatus.PAID
                          transaction_id := some "p1"
                          expires_at := some 10 }
      ∧ findCabin db1 "c1" =
          some { cab0 with status := CabinStatus.OCCUPIED
                           current_occupant_id := some "u1" } := by
  obtain ⟨db1, h1, h2, h3⟩ :=
    (C5_confirm_booking 5 "u1" "b1" "p1"
      (mkDb [cab0] [{ bk0 with status := BookingStatus.HELD, expires_at := some 10 }] [])
      { bk0 with status := BookingStatus.HELD, expires_at := some 10 } 10
      rfl rfl rfl).2 "c1" cab0 (by decide) rfl rfl
  exact ⟨db1, h1, h2, h3⟩

/-- Counterexample to C5 as stated, in two concrete parts: (1) at
`now = expires_at` confirmation still succeeds (the claim requires strict
`now < expires_at`); (2) a confirmation by a non-owner (`u2` on `u1`'s
booking) leaves the seat's holder fields set (`u9`'s stale hold is not
cleared) and records the **caller** `u2`, not the booking's owner, as
occupant. -/
theorem C5_counterexample :
    (∃ db1, confirm_booking 10 "u1" "b1" "p1"
        (mkDb [cab0] [{ bk0 with status := BookingStatus.HELD, expires_at := some 10 }] [])
        = .ok db1)
    ∧ (∃ db1 c1, confirm_booking 0 "u2" "b1" "p1"
        (mkDb [{ cab0 with held_by_user_id := some "u9", hold_expires_at := some "mm" }]
              [{ bk0 with status := BookingStatus.HELD, expires_at := some 10 }] [])
        = .ok db1
        ∧ findCabin db1 "c1" = some c1
        ∧ c1.held_by_user_id = some "u9"
        ∧ c1.hold_expires_at = some "mm"
        ∧ c1.current_occupant_id = some "u2") :=
  ⟨⟨_, rfl⟩, ⟨_, _, rfl, rfl, rfl, rfl, rfl⟩⟩

/-! ## Claim C7 -/

/-- **C7** (amended).  For every existing booking owned by the caller,
`extend_booking` validates only that the extra amount is strictly positive
(rejecting `extension_amount ≤ 0` with no change); it performs **no
validation that the new end date is after the booking's current end_date**
(the difference is computed solely to report `months_extended`).  On success
it updates only `end_date` and `amount` — never the booking's status — and
has no effect on any seat's state or on the other tables. -/
theorem C7_extend_booking (user bid : String) (nd : Nat) (ea : Int) (db : DB) (b : Booking)
    (hb : findBooking db bid = some b) (howner : b.user_id = user) :
    (ea ≤ 0 → extend_booking user bid nd ea db = .error .invalidAmount)
    ∧ (0 < ea →
        extend_booking user bid nd ea db =
          .ok (setBooking db bid (fun x => { x with end_date := nd, amount := x.amount + ea }))
        ∧ findBooking (setBooking db bid (fun x =>
              { x with end_date := nd, amount := x.amount + ea })) bid =
            some { b with end_date := nd, amount := b.amount + ea }
        ∧ (setBooking db bid (fun x =>
              { x with end_date := nd, amount := x.amount + ea })).cabins = db.cabins
        ∧ (setBooking db bid (fun x =>
              { x with end_date := nd, amount := x.amount + ea })).waitlist = db.waitlist
        ∧ (setBooking db bid (fun x =>
              { x with end_date := nd, amount := x.amount + ea })).notifications
            = db.notifications) := by
  have hbeq : (!(b.user_id == user) : Bool) = false := by
    simp [howner]
  constructor
  · intro hle
    simp only [extend_booking, hb]
    rw [howner]
    simp [hle]
  · intro hpos
    have hnle : ¬(ea ≤ 0) := not_le.mpr hpos
    refine ⟨?_, ?_, rfl, rfl, rfl⟩
    · simp only [extend_booking, hb]
      rw [howner]
      simp [hnle]
    · exact findBooking_setBooking_same db bid _ b (fun x => rfl) hb

/-- Witness for C7 at a concrete booking: a positive extension is applied
to `end_date` and `amount` only. -/
theorem C7_witness :
    extend_booking "u1" "b1" 2000 50 (mkDb [] [bk0] []) =
      .ok (setBooking (mkDb [] [bk0] []) "b1"
            (fun x => { x with end_date := 2000, amount := x.amount + 50 })) :=
  ((C7_extend_booking "u1" "b1" 2000 50 (mkDb [] [bk0] []) bk0 rfl rfl).2
    (by decide)).1

/-- Counterexample to C7 as stated: the booking ends at 1000, yet an
"extension" to 50 — strictly *before* the current end date — is accepted
and applied; the claim requires such a call to be rejected. -/
theorem C7_counterexample :
    ∃ db1 b1, extend_booking "u1" "b1" 50 5 (mkDb [] [bk0] []) = .ok db1
      ∧ findBooking db1 "b1" = some b1
      ∧ b1.end_date = 50 ∧ bk0.end_date = 1000 :=
  ⟨_, _, rfl, rfl, rfl, rfl⟩

/-! ## Claim C2 -/

/-- **C2** (code bug).  The route sets `entry.status = CANCELLED` *before*
testing `if entry.status == WaitlistStatus.NOTIFIED:`, so the
release-and-promote branch is dead code.  At the failing input — a NOTIFIED
entry `w1` of user `u2` who currently holds the RESERVED seat, with a next
ACTIVE entry `w2` waiting — cancelling `w1` marks it CANCELLED but leaves
the seat still RESERVED and held by `u2`, leaves `w2` ACTIVE (never
NOTIFIED), and emits no notification: the offer stalls, contradicting the
claim (and the route's own comment). -/
theorem C2_cancel_waitlist_stalls :
    ∃ db1, cancel_waitlist unaryCodec 10 "u2" "w1"
        (mkDb [{ cab0 with status := CabinStatus.RESERVED
                           held_by_user_id := some "u2"
                           hold_expires_at := some (unaryCodec.iso 30) }]
              []
              [{ wl0 with status := WaitlistStatus.NOTIFIED
                          notified_at := some 0
                          expires_at := some 30 },
               { wl0 with id := "w2", user_id := "u3", created_at := 4 }])
        = .ok db1
      ∧ findEntry db1 "w1" =
          some { wl0 with status := WaitlistStatus.CANCELLED
                          notified_at := some 0
                          expires_at := some 30 }
      ∧ findCabin db1 "c1" =
          some { cab0 with status := CabinStatus.RESERVED
                           held_by_user_id := some "u2"
                           hold_expires_at := some (unaryCodec.iso 30) }
      ∧ findEntry db1 "w2" = some { wl0 with id := "w2", user_id := "u3", created_at := 4 }
      ∧ db1.notifications = [] :=
  ⟨_, rfl, rfl, rfl, rfl, rfl⟩

/-! ## Claim C8 -/

/-- **C8** (code bug).  `acquire_seat_hold` reads the row and later writes
the holder columns with no compare-and-set guard, so under the interleaving
read₁, read₂, write₁, write₂ two different users racing for the same
AVAILABLE seat are **both** answered `HoldGranted` — contradicting the
claim (which is the spec's §5 corrected design; §9 itself flags the
source's unguarded read-then-write as a latent race).  Only the last
writer (`u2`) ends up recorded as holder. -/
theorem C8_both_granted :
    ∃ dbf t1f t2f,
      runAcqSchedule unaryCodec 0 "c1" [true, false, true, false]
          (mkDb [cab0] [] [],
           { user := "u1", snapshot := none, granted := none },
           { user := "u2", snapshot := none, granted := none }) = (dbf, t1f, t2f)
      ∧ t1f.granted = some true
      ∧ t2f.granted = some true
      ∧ findCabin dbf "c1" =
          some { cab0 with held_by_user_id := some "u2",
                           hold_expires_at := some (unaryCodec.iso 5) } :=
  ⟨_, _, _, rfl, rfl, rfl, rfl⟩

/-! ## Claim C1 -/

/-- Shared description of what the Release Coordinator does when the cabin
exists and at least one ACTIVE entry is waiting: the FIFO-chosen entry is
stamped NOTIFIED/`now`/`now + 30`, the cabin is reserved for its user with
the matching ISO expiry, and exactly one notification is appended. -/
theorem coordinator_promotes (codec : TimeCodec) (now : Nat) (cid : String) (db : DB)
    (cabin : Cabin) (e : WaitlistEntry)
    (hcab : findCabin db cid = some cabin)
    (he : oldestActive cid db.waitlist = some e) :
    (check_waitlist_and_notify codec now cid db).waitlist
        = db.waitlist.map (fun x => if x.id == e.id then
            { x with status := WaitlistStatus.NOTIFIED
                     notified_at := some now
                     expires_at := some (now + 30) } else x)
      ∧ findCabin (check_waitlist_and_notify codec now cid db) cid =
          some { cabin with status := CabinStatus.RESERVED
                            held_by_user_id := some e.user_id
                            hold_expires_at := some (codec.iso (now + 30)) }
      ∧ (check_waitlist_and_notify codec now cid db).notifications =
          db.notifications ++
            [{ user_id := e.user_id, title := "Seat Available!",
               message := offerMessage cabin.number, read := false, type := "success" }]
      ∧ (check_waitlist_and_notify codec now cid db).bookings = db.bookings := by
  have hred : check_waitlist_and_notify codec now cid db =
      { setCabin (setEntry db e.id (fun x =>
            { x with status := WaitlistStatus.NOTIFIED
                     notified_at := some now
                     expires_at := some (now + 30) })) cid
          (fun c => { c with status := CabinStatus.RESERVED
                             held_by_user_id := some e.user_id
                             hold_expires_at := some (codec.iso (now + 30)) })
        with notifications :=
          db.notifications ++
            [{ user_id := e.user_id, title := "Seat Available!",
               message := offerMessage cabin.number, read := false, type := "success" }] } := by
    simp only [check_waitlist_and_notify, hcab, he]
    rfl
  rw [hred]
  refine ⟨rfl, ?_, rfl, rfl⟩
  show findCabin (setCabin (setEntry db e.id _) cid _) cid = _
  exact findCabin_setCabin_same _ cid _ cabin (fun c => rfl)
    (by rw [findCabin_setEntry]; exact hcab)

/-- **C1** (confirmed).  For every seat with an ACTIVE booking and at least
one ACTIVE waitlist entry, a successful `cancel_booking` by the booking's
owner marks the booking CANCELLED and results in exactly one WaitlistEntry
— one with the smallest `created_at` among ACTIVE entries for that seat —
transitioning ACTIVE→NOTIFIED with `notified_at = now` and
`expires_at = now + 30` minutes; the seat transitions to
RESERVED (the spec's RESERVED_FOR_WAITLIST) with `holder_id` equal to that
entry's `user_id` and `hold_expires_at` the ISO rendering of the entry's
`expires_at`; and exactly one Notification is emitted to that user. -/
theorem C1_cancel_promotes_waitlist (codec : TimeCodec) (now : Nat) (u bid cid : String)
    (db : DB) (b : Booking) (cabin : Cabin) (w : WaitlistEntry)
    (hb : findBooking db bid = some b)
    (howner : b.user_id = u)
    (hactive : b.status = BookingStatus.ACTIVE)
    (hcid : b.cabin_id = some cid)
    (hne : cid ≠ "")
    (hcab : findCabin db cid = some cabin)
    (hw : w ∈ db.waitlist) (hwc : w.cabin_id = cid) (hws : w.status = WaitlistStatus.ACTIVE) :
    ∃ e db1, cancel_booking codec now u bid db = .ok db1
      ∧ e ∈ db.waitlist ∧ e.cabin_id = cid ∧ e.status = WaitlistStatus.ACTIVE
      ∧ (∀ x ∈ db.waitlist, x.cabin_id = cid → x.status = WaitlistStatus.ACTIVE →
          e.created_at ≤ x.created_at)
      ∧ db1.waitlist = db.waitlist.map (fun x =>
          if x.id == e.id then
            { x with status := WaitlistStatus.NOTIFIED
                     notified_at := some now
                     expires_at := some (now + 30) }
          else x)
      ∧ findCabin db1 cid =
          some { cabin with status := CabinStatus.RESERVED
                            current_occupant_id := none
                            held_by_user_id := some e.user_id
                            hold_expires_at := some (codec.iso (now + 30)) }
      ∧ db1.notifications = db.notifications ++
          [{ user_id := e.user_id, title := "Seat Available!",
             message := offerMessage cabin.number, read := false, type := "success" }]
      ∧ findBooking db1 bid = some { b with status := BookingStatus.CANCELLED } := by
  obtain ⟨e, he⟩ := oldestActive_isSome cid db.waitlist w hw hwc hws
  obtain ⟨hmem, hecid, heact, hmin⟩ := oldestActive_spec cid db.waitlist e he
  have hnc : ¬(b.status = BookingStatus.CANCELLED) := by
    rw [hactive]; intro hx; cases hx
  have hcab1 : findCabin (setBooking db bid (fun x =>
      { x with status := BookingStatus.CANCELLED })) cid = some cabin := by
    rw [findCabin_setBooking]; exact hcab
  have hstep : cancel_booking codec now u bid db =
      .ok (check_waitlist_and_notify codec now cid
        (setCabin (setBooking db bid (fun x => { x with status := BookingStatus.CANCELLED }))
          cid (fun c =>
            { c with status := CabinStatus.AVAILABLE, current_occupant_id := none }))) := by
    simp only [cancel_booking, hb, hcid]
    rw [howner]
    simp [hnc, hne, hcab1]
  have hfavail : findCabin (setCabin (setBooking db bid (fun x =>
        { x with status := BookingStatus.CANCELLED })) cid (fun c =>
        { c with status := CabinStatus.AVAILABLE, current_occupant_id := none })) cid
      = some { cabin with status := CabinStatus.AVAILABLE, current_occupant_id := none } :=
    findCabin_setCabin_same _ cid _ cabin (fun c => rfl) hcab1
  obtain ⟨hq1, hq2, hq3, hq4⟩ := coordinator_promotes codec now cid
    (setCabin (setBooking db bid (fun x => { x with status := BookingStatus.CANCELLED }))
      cid (fun c => { c with status := CabinStatus.AVAILABLE, current_occupant_id := none }))
    { cabin with status := CabinStatus.AVAILABLE, current_occupant_id := none } e hfavail he
  refine ⟨e, _, hstep, hmem, hecid, heact, hmin, hq1, ?_, hq3, ?_⟩
  · exact hq2
  · show findBooking _ bid = _
    unfold findBooking
    rw [hq4]
    exact findBooking_setBooking_same db bid _ b (fun x => rfl) hb

/-- Witness for C1 at the concrete fixture `dbC1`:
cancelling `u1`'s ACTIVE booking promotes the FIFO-oldest waiter. -/
theorem C1_witness :
    ∃ e db1, cancel_booking unaryCodec 10 "u1" "b1" dbC1 = .ok db1
      ∧ e ∈ dbC1.waitlist ∧ e.cabin_id = "c1" ∧ e.status = WaitlistStatus.ACTIVE
      ∧ (∀ x ∈ dbC1.waitlist, x.cabin_id = "c1" → x.status = WaitlistStatus.ACTIVE →
          e.created_at ≤ x.created_at)
      ∧ db1.waitlist = dbC1.waitlist.map (fun x =>
          if x.id == e.id then
            { x with status := WaitlistStatus.NOTIFIED
                     notified_at := some 10
                     expires_at := some (10 + 30) }
          else x)
      ∧ findCabin db1 "c1" =
          some { { cab0 with status := CabinStatus.OCCUPIED
                             current_occupant_id := some "u1" } with
                   status := CabinStatus.RESERVED
                   current_occupant_id := none
                   held_by_user_id := some e.user_id
                   hold_expires_at := some (unaryCodec.iso (10 + 30)) }
      ∧ db1.notifications = dbC1.notifications ++
          [{ user_id := e.user_id, title := "Seat Available!",
             message := offerMessage cab0.number, read := false, type := "success" }]
      ∧ findBooking db1 "b1" = some { bk0 with status := BookingStatus.CANCELLED } :=
  C1_cancel_promotes_waitlist unaryCodec 10 "u1" "b1" "c1" dbC1 bk0
    { cab0 with status := CabinStatus.OCCUPIED, current_occupant_id := some "u1" } wl0
    rfl rfl rfl rfl (by decide) rfl (by decide) rfl rfl

/-! ## Claim C6 -/

theorem find?_key_unique {α : Type} (key : α → String) (k : String) (l : List α) (x y : α)
    (hn : (l.map key).Nodup) (hf : l.find? (fun z => key z == k) = some x)
    (hy : y ∈ l) (hk : key y = k) : y = x := by
  induction l with
  | nil => cases hy
  | cons a l ih =>
    rw [List.map_cons, List.nodup_cons] at hn
    by_cases ha : (key a == k) = true
    · rw [@List.find?_cons_of_pos _ (fun z => key z == k) a l ha] at hf
      injection hf with hf
      rcases List.mem_cons.mp hy with hy | hy
      · rw [hy, hf]
      · exfalso
        apply hn.1
        rw [List.mem_map]
        exact ⟨y, hy, by rw [hk]; exact (beq_iff_eq.mp ha).symm⟩
    · rw [@List.find?_cons_of_neg _ (fun z => key z == k) a l ha] at hf
      rcases List.mem_cons.mp hy with hy | hy
      · exfalso
        apply ha
        rw [beq_iff_eq, ← hy]
        exact hk
      · exact ih hn.2 hf hy

theorem dbOccInv_setCabin (db : DB) (cid : String) (f : Cabin → Cabin)
    (hinv : dbOccInv db)
    (hf : ∀ c ∈ db.cabins, c.id = cid → occInv (f c)) :
    dbOccInv (setCabin db cid f) := by
  intro c' hc'
  obtain ⟨c, hc, hceq⟩ := List.mem_map.mp hc'
  rw [← hceq]
  by_cases hid : (c.id == cid) = true
  · rw [if_pos hid]
    exact hf c hc (beq_iff_eq.mp hid)
  · rw [if_neg hid]
    exact hinv c hc

/-- The Release Coordinator preserves the occupancy invariant provided
every row with the released id is already vacated (occupant null, status
not OCCUPIED) — which is how `cancel_booking` calls it. -/
theorem coordinator_occInv (codec : TimeCodec) (now : Nat) (cid : String) (db : DB)
    (hinv : dbOccInv db)
    (hocc : ∀ c ∈ db.cabins, c.id = cid →
      c.current_occupant_id = none ∧ c.status ≠ CabinStatus.OCCUPIED) :
    dbOccInv (check_waitlist_and_notify codec now cid db) := by
  cases hfind : findCabin db cid with
  | none =>
    have hred : check_waitlist_and_notify codec now cid db = db := by
      simp only [check_waitlist_and_notify, hfind]
    rw [hred]
    exact hinv
  | some cabin =>
    cases hold : oldestActive cid db.waitlist with
    | some e =>
      have hred : check_waitlist_and_notify codec now cid db =
          { setCabin (setEntry db e.id (fun x =>
                { x with status := WaitlistStatus.NOTIFIED
                         notified_at := some now
                         expires_at := some (now + 30) })) cid
              (fun c => { c with status := CabinStatus.RESERVED
                                 held_by_user_id := some e.user_id
                                 hold_expires_at := some (codec.iso (now + 30)) })
            with notifications :=
              db.notifications ++
                [{ user_id := e.user_id, title := "Seat Available!",
                   message := offerMessage cabin.number, read := false, type := "success" }] } := by
        simp only [check_waitlist_and_notify, hfind, hold]
        rfl
      rw [hred]
      have : dbOccInv (setCabin (setEntry db e.id (fun x =>
          { x with status := WaitlistStatus.NOTIFIED
                   notified_at := some now
                   expires_at := some (now + 30) })) cid
          (fun c => { c with status := CabinStatus.RESERVED
                             held_by_user_id := some e.user_id
                             hold_expires_at := some (codec.iso (now + 30)) })) := by
        apply dbOccInv_setCabin
        · exact hinv
        · intro c hc hid
          have hv := (hocc c hc hid).1
          unfold occInv
          simp [hv]
      exact this
    | none =>
      by_cases hres : cabin.status = CabinStatus.RESERVED
      · have hred : check_waitlist_and_notify codec now cid db =
            setCabin db cid (fun c =>
              { c with status := CabinStatus.AVAILABLE
                       held_by_user_id := none
                       hold_expires_at := none }) := by
          simp only [check_waitlist_and_notify, hfind, hold]
          rw [if_pos hres]
        rw [hred]
        apply dbOccInv_setCabin db cid _ hinv
        intro c hc hid
        have hv := (hocc c hc hid).1
        unfold occInv
        simp [hv]
      · have hred : check_waitlist_and_notify codec now cid db = db := by
          simp only [check_waitlist_and_notify, hfind, hold]
          rw [if_neg hres]
        rw [hred]
        exact hinv

/-- **C6** (amended).  The equivalence `status = OCCUPIED ↔ occupant_id ≠
null` is preserved by the booking-flow operations — `acquire_hold`,
`hold_booking` (on a store with unique cabin ids), `confirm_booking`,
`create_booking` (direct booking), `cancel_booking` (including its Release
Coordinator call), and `cancel_waitlist_entry` — but **not** by every
exposed operation: `update_cabin` and `bulk_update_cabins` write `status`
without adjusting `occupant_id`, and `release_hold` on an OCCUPIED seat
with a stale holder lets the Release Coordinator set `status = RESERVED`
while `occupant_id` stays set (see the counterexample). -/
theorem C6_occupancy_invariant (codec : TimeCodec) :
    (∀ (now : Nat) (user cid : String) (db : DB) (c1 : Cabin) (db1 : DB), dbOccInv db →
        acquire_seat_hold codec now user cid db = .ok (c1, db1) → dbOccInv db1)
    ∧ (∀ (now : Nat) (user nid : String) (req : BookingCreate) (db : DB) (nb : Booking)
          (db1 : DB), dbOccInv db → (db.cabins.map Cabin.id).Nodup →
        hold_booking now user nid req db = .ok (nb, db1) → dbOccInv db1)
    ∧ (∀ (now : Nat) (user bid pid : String) (db : DB) (db1 : DB), dbOccInv db →
        confirm_booking now user bid pid db = .ok db1 → dbOccInv db1)
    ∧ (∀ (now : Nat) (user nid cid : String) (req : BookingCreate) (db : DB) (nb : Booking)
          (db1 : DB), dbOccInv db →
        create_booking now user nid req cid db = .ok (nb, db1) → dbOccInv db1)
    ∧ (∀ (now : Nat) (user bid : String) (db : DB) (db1 : DB), dbOccInv db →
        cancel_booking codec now user bid db = .ok db1 → dbOccInv db1)
    ∧ (∀ (now : Nat) (user eid : String) (db : DB) (db1 : DB), dbOccInv db →
        cancel_waitlist codec now user eid db = .ok db1 → dbOccInv db1) := by
  refine ⟨?_, ?_, ?_, ?_, ?_, ?_⟩
  · -- acquire_seat_hold
    intro now user cid db c1 db1 hinv h
    cases hfind : findCabin db cid with
    | none => simp only [acquire_seat_hold, hfind] at h; cases h
    | some cabin =>
      have hmemc : cabin ∈ db.cabins := List.mem_of_find?_eq_some hfind
      have hacq : acquire_seat_hold codec now user cid db =
          (if cabin.status = CabinStatus.OCCUPIED then .error .occupied
           else if cabin.status = CabinStatus.MAINTENANCE then .error .maintenance
           else if heldByOtherCond codec now user cabin then .error .heldByOther
           else .ok ({ cabin with
                         held_by_user_id := some user
                         hold_expires_at := some (codec.iso (now + HOLD_DURATION_MINUTES)) },
                     setCabin db cid (fun _ =>
                       { cabin with
                           held_by_user_id := some user
                           hold_expires_at := some (codec.iso (now + HOLD_DURATION_MINUTES)) }))) := by
        rw [acquire_seat_hold, hfind]
      rw [hacq] at h
      by_cases h1 : cabin.status = CabinStatus.OCCUPIED
      · rw [if_pos h1] at h; cases h
      · rw [if_neg h1] at h
        by_cases h2 : cabin.status = CabinStatus.MAINTENANCE
        · rw [if_pos h2] at h; cases h
        · rw [if_neg h2] at h
          by_cases h3 : heldByOtherCond codec now user cabin = true
          · rw [if_pos h3] at h; cases h
          · rw [if_neg h3] at h
            obtain ⟨hcab, hdb⟩ := Prod.mk.inj (Except.ok.inj h)
            subst hdb
            apply dbOccInv_setCabin db cid _ hinv
            intro c hc hid
            exact hinv cabin hmemc
  · -- hold_booking
    intro now user nid req db nb db1 hinv hnodup h
    cases hreq : req.cabin_id with
    | none => simp only [hold_booking, hreq] at h; cases h
    | some cid =>
      simp only [hold_booking, hreq] at h
      by_cases hemp : (cid == "") = true
      · rw [if_pos hemp] at h; cases h
      · rw [if_neg hemp] at h
        cases hfind : findCabin db cid with
        | none => simp only [hfind] at h; cases h
        | some cabin =>
          simp only [hfind] at h
          by_cases hav : (!(cabin.status = CabinStatus.AVAILABLE) : Bool) = true
          · rw [if_pos hav] at h; cases h
          · rw [if_neg hav] at h
            obtain ⟨hnb, hdb⟩ := Prod.mk.inj (Except.ok.inj h)
            subst hdb
            have hstat : cabin.status = CabinStatus.AVAILABLE := by
              by_contra hx
              apply hav
              simp [hx]
            have hoccn : cabin.current_occupant_id = none := by
              have hi := hinv cabin (List.mem_of_find?_eq_some hfind)
              unfold occInv at hi
              by_contra hx
              have h4 := hi.mpr hx
              rw [hstat] at h4
              cases h4
            have hgoal : dbOccInv (setCabin db cid (fun c =>
                { c with status := CabinStatus.RESERVED })) := by
              apply dbOccInv_setCabin db cid _ hinv
              intro c hc hid
              have hceq : c = cabin :=
                find?_key_unique Cabin.id cid db.cabins cabin c hnodup hfind hc hid
              subst hceq
              unfold occInv
              simp [hoccn]
            exact hgoal
  · -- confirm_booking
    intro now user bid pid db db1 hinv h
    cases hfind : findBooking db bid with
    | none => simp only [confirm_booking, hfind] at h; cases h
    | some b =>
      simp only [confirm_booking, hfind] at h
      by_cases hheld : (!(b.status = BookingStatus.HELD) : Bool) = true
      · rw [if_pos hheld] at h; cases h
      · rw [if_neg hheld] at h
        cases hexp : b.expires_at with
        | none => simp only [hexp] at h; cases h
        | some t =>
          simp only [hexp] at h
          by_cases hlt : t < now
          · rw [if_pos hlt] at h; cases h
          · rw [if_neg hlt] at h
            cases hcid : b.cabin_id with
            | none =>
              simp only [hcid] at h
              have hdb := Except.ok.inj h
              subst hdb
              exact hinv
            | some cid =>
              simp only [hcid] at h
              cases hfc : findCabin (setBooking db bid (fun x =>
                  { x with status := BookingStatus.ACTIVE
                           payment_status := PaymentStatus.PAID
                           transaction_id := some pid })) cid with
              | none =>
                simp only [hfc] at h
                have hdb := Except.ok.inj h
                subst hdb
                exact hinv
              | some cabin =>
                simp only [hfc] at h
                have hdb := Except.ok.inj h
                subst hdb
                have hgoal : dbOccInv (setCabin (setBooking db bid (fun x =>
                    { x with status := BookingStatus.ACTIVE
                             payment_status := PaymentStatus.PAID
                             transaction_id := some pid })) cid (fun c =>
                    { c with status := CabinStatus.OCCUPIED
                             current_occupant_id := some user })) := by
                  apply dbOccInv_setCabin _ cid _ hinv
                  intro c hc hid
                  unfold occInv
                  simp
                exact hgoal
  · -- create_booking
    intro now user nid cid req db nb db1 hinv h
    cases hfind : findCabin db cid with
    | none => simp only [create_booking, hfind] at h; cases h
    | some cabin =>
      simp only [create_booking, hfind] at h
      by_cases hav : (!(cabin.status = CabinStatus.AVAILABLE) : Bool) = true
      · rw [if_pos hav] at h; cases h
      · rw [if_neg hav] at h
        have hocc : dbOccInv (setCabin db cid (fun c =>
            { c with status := CabinStatus.OCCUPIED
                     current_occupant_id := some user })) := by
          apply dbOccInv_setCabin db cid _ hinv
          intro c hc hid
          unfold occInv
          simp
        cases hwl : (setCabin db cid (fun c =>
            { c with status := CabinStatus.OCCUPIED
                     current_occupant_id := some user })).waitlist.find? (fun w =>
              w.user_id == user && w.reading_room_id == cabin.reading_room_id
                && (w.status == WaitlistStatus.ACTIVE || w.status == WaitlistStatus.NOTIFIED)) with
        | none =>
          simp only [hwl] at h
          obtain ⟨hnb, hdb⟩ := Prod.mk.inj (Except.ok.inj h)
          subst hdb
          exact hocc
        | some wl =>
          simp only [hwl] at h
          obtain ⟨hnb, hdb⟩ := Prod.mk.inj (Except.ok.inj h)
          subst hdb
          exact hocc
  · -- cancel_booking
    intro now user bid db db1 hinv h
    cases hfind : findBooking db bid with
    | none => simp only [cancel_booking, hfind] at h; cases h
    | some b =>
      simp only [cancel_booking, hfind] at h
      by_cases huser : (!(b.user_id == user) : Bool) = true
      · rw [if_pos huser] at h; cases h
      · rw [if_neg huser] at h
        by_cases hcanc : b.status = BookingStatus.CANCELLED
        · rw [if_pos hcanc] at h; cases h
        · rw [if_neg hcanc] at h
          cases hcid : b.cabin_id with
          | none =>
            simp only [hcid] at h
            have hdb := Except.ok.inj h
            subst hdb
            exact hinv
          | some cid =>
            simp only [hcid] at h
            by_cases hemp : (cid == "") = true
            · rw [if_pos hemp] at h
              have hdb := Except.ok.inj h
              subst hdb
              exact hinv
            · rw [if_neg hemp] at h
              cases hfc : findCabin (setBooking db bid (fun x =>
                  { x with status := BookingStatus.CANCELLED })) cid with
              | none =>
                simp only [hfc] at h
                have hdb := Except.ok.inj h
                subst hdb
                exact hinv
              | some cab2 =>
                simp only [hfc] at h
                have hdb := Except.ok.inj h
                subst hdb
                apply coordinator_occInv
                · apply dbOccInv_setCabin _ cid _ hinv
                  intro c hc hid
                  unfold occInv
                  simp
                · intro c hc hid
                  simp only [setCabin] at hc
                  obtain ⟨c0, hc0, hceq⟩ := List.mem_map.mp hc
                  by_cases h0 : (c0.id == cid) = true
                  · rw [if_pos h0] at hceq
                    rw [← hceq]
                    exact ⟨rfl, by intro hx; cases hx⟩
                  · rw [if_neg h0] at hceq
                    exfalso
                    apply h0
                    rw [beq_iff_eq, hceq]
                    exact hid
  · -- cancel_waitlist
    intro now user eid db db1 hinv h
    cases hfind : findEntry db eid with
    | none => simp only [cancel_waitlist, hfind] at h; cases h
    | some e =>
      simp only [cancel_waitlist, hfind] at h
      by_cases huser : (!(e.user_id == user) : Bool) = true
      · rw [if_pos huser] at h; cases h
      · rw [if_neg huser] at h
        rw [if_neg (by intro hx; cases hx)] at h
        have hdb := Except.ok.inj h
        subst hdb
        exact hinv

/-- Witness for C6: a concrete `acquire_seat_hold` application preserves the
invariant. -/
theorem C6_witness :
    dbOccInv (setCabin (mkDb [cab0] [] []) "c1" (fun _ =>
      { cab0 with held_by_user_id := some "u1"
                  hold_expires_at := some (unaryCodec.iso 5) })) :=
  (C6_occupancy_invariant unaryCodec).1 0 "u1" "c1" (mkDb [cab0] [] []) _ _
    (by decide) rfl

/-- Counterexample to C6 as stated: starting from an invariant-satisfying
store, (1) `bulk_update_cabins` with `status = OCCUPIED` leaves
`occupant_id` null while making the status OCCUPIED, and (2) `release_hold`
by the stale holder of an OCCUPIED seat with a waiting ACTIVE entry ends
with `status = RESERVED` while `occupant_id` is still set — both final
states violate the equivalence. -/
theorem C6_counterexample :
    (dbOccInv (mkDb [cab0] [] [])
      ∧ ¬ dbOccInv (bulk_update_cabins ["c1"] (some CabinStatus.OCCUPIED) none
            (mkDb [cab0] [] [])))
    ∧ (dbOccInv (mkDb [{ cab0 with status := CabinStatus.OCCUPIED
                                   current_occupant_id := some "v1"
                                   held_by_user_id := some "u1" }] [] [wl0])
      ∧ ∃ db1, release_seat_hold unaryCodec 0 "u1" "c1"
          (mkDb [{ cab0 with status := CabinStatus.OCCUPIED
                             current_occupant_id := some "v1"
                             held_by_user_id := some "u1" }] [] [wl0]) = .ok db1
          ∧ ¬ dbOccInv db1) :=
  ⟨⟨by decide, by decide⟩, by decide, ⟨_, rfl, by decide⟩⟩

end StudySpace
